import Mathlib

/-!
Verification of the paws quest-automation client (src/paws.js and
src/paws-proxy.js).  The two variants share all the logic the claims are
about; each definition below is a shallow embedding of the corresponding
JavaScript function, with JavaScript strings modelled as `List Char`,
thrown exceptions as `Except`, and the `undefined` value as `Option.none`
where a function can fall off its end without a `return`.
-/

namespace Paws

/-! ## JavaScript string primitives -/

/-- Model of `token.split('.')` (paws.js line 108): splits a character list
at every `'.'`, keeping empty segments, always returning at least one
segment (JS `''.split('.')` is `['']`). -/
def splitOnDot : List Char → List (List Char)
  | [] => [[]]
  | c :: rest =>
    let r := splitOnDot rest
    if c = '.' then [] :: r
    else
      match r with
      | s :: ss => (c :: s) :: ss
      | [] => [[c]]

/-! ## Node base64 decoding

`Buffer.from(s, 'base64')` (paws.js line 109) decodes leniently: every
character outside the base64 alphabet — whitespace, `'='` padding and any
other byte — is skipped, and trailing bits that do not fill a byte are
dropped.  The decoded bytes are read back with `.toString()`; the payloads
relevant here are ASCII, so a byte maps to the character of its code. -/

/-- Value of one base64 alphabet character (standard and URL-safe);
`none` for characters Node's decoder skips. -/
def b64Val (c : Char) : Option Nat :=
  if 'A' ≤ c ∧ c ≤ 'Z' then some (c.toNat - 'A'.toNat)
  else if 'a' ≤ c ∧ c ≤ 'z' then some (c.toNat - 'a'.toNat + 26)
  else if '0' ≤ c ∧ c ≤ '9' then some (c.toNat - '0'.toNat + 52)
  else if c = '+' ∨ c = '-' then some 62
  else if c = '/' ∨ c = '_' then some 63
  else none

/-- Turn a list of 6-bit values into bytes, dropping incomplete trailing
bits, as Node's base64 decoder does. -/
def b64Bytes : List Nat → List Nat
  | a :: b :: c :: d :: rest =>
      (a * 4 + b / 16) :: ((b % 16) * 16 + c / 4) :: ((c % 4) * 64 + d) ::
        b64Bytes rest
  | [a, b, c] => [a * 4 + b / 16, (b % 16) * 16 + c / 4]
  | [a, b] => [a * 4 + b / 16]
  | [_] => []
  | [] => []

/-- Model of `Buffer.from(s, 'base64').toString()`: lenient decode of the
valid alphabet characters, bytes read back as characters. -/
def b64decode (cs : List Char) : List Char :=
  (b64Bytes (cs.filterMap b64Val)).map Char.ofNat

/-! ## A minimal model of JSON.parse

The embedding covers the JSON fragment the token payloads live in:
`null`, booleans, integer numbers, strings without escape sequences,
arrays and objects.  `JSON.parse` is modelled as returning `none` where
it would throw. -/

inductive JVal where
  | jnull : JVal
  | jbool : Bool → JVal
  | jnum : Int → JVal
  | jstr : List Char → JVal
  | jarr : List JVal → JVal
  | jobj : List (List Char × JVal) → JVal
deriving Repr

/-- JSON whitespace. -/
def jsWs (c : Char) : Bool :=
  c = ' ' || c = '\t' || c = '\n' || c = '\r'

/-- Skip JSON whitespace. -/
def skipWs (cs : List Char) : List Char := cs.dropWhile jsWs

/-- Parse a nonempty run of decimal digits into its value. -/
def parseDigits (cs : List Char) : Option (Nat × List Char) :=
  let digits := cs.takeWhile Char.isDigit
  if digits = [] then none
  else some (digits.foldl (fun acc c => acc * 10 + (c.toNat - '0'.toNat)) 0,
             cs.dropWhile Char.isDigit)

/-- Parse the characters of a JSON string after the opening quote (escape
sequences are outside the modelled fragment). -/
def parseStrChars : List Char → Option (List Char × List Char)
  | [] => none
  | c :: rest =>
    if c = '"' then some ([], rest)
    else if c = '\\' then none
    else (parseStrChars rest).map (fun p => (c :: p.1, p.2))

mutual

/-- Fuel-driven recursive-descent parser for one JSON value. -/
def parseJVal : Nat → List Char → Option (JVal × List Char)
  | 0, _ => none
  | Nat.succ fuel, cs =>
    match skipWs cs with
    | 'n' :: 'u' :: 'l' :: 'l' :: rest => some (JVal.jnull, rest)
    | 't' :: 'r' :: 'u' :: 'e' :: rest => some (JVal.jbool true, rest)
    | 'f' :: 'a' :: 'l' :: 's' :: 'e' :: rest => some (JVal.jbool false, rest)
    | '"' :: rest =>
        (parseStrChars rest).map (fun p => (JVal.jstr p.1, p.2))
    | '-' :: rest =>
        (parseDigits rest).map (fun p => (JVal.jnum (-(p.1 : Int)), p.2))
    | '[' :: rest =>
        (parseJItems fuel (skipWs rest)).map
          (fun p => (JVal.jarr p.1, p.2))
    | '\x7b' :: rest =>
        (parseJFields fuel (skipWs rest)).map
          (fun p => (JVal.jobj p.1, p.2))
    | c :: rest =>
        if c.isDigit then
          (parseDigits (c :: rest)).map
            (fun p => (JVal.jnum (p.1 : Int), p.2))
        else none
    | [] => none

/-- Parse the items of an array, positioned after `'['` (whitespace
skipped). -/
def parseJItems : Nat → List Char → Option (List JVal × List Char)
  | 0, _ => none
  | Nat.succ fuel, cs =>
    match cs with
    | ']' :: rest => some ([], rest)
    | _ =>
      match parseJVal fuel cs with
      | none => none
      | some (v, rest) =>
        match skipWs rest with
        | ',' :: rest2 =>
            (parseJItems fuel (skipWs rest2)).map
              (fun p => (v :: p.1, p.2))
        | ']' :: rest2 => some ([v], rest2)
        | _ => none

/-- Parse the fields of an object, positioned after the opening brace
(whitespace skipped). -/
def parseJFields : Nat → List Char →
    Option (List (List Char × JVal) × List Char)
  | 0, _ => none
  | Nat.succ fuel, cs =>
    match cs with
    | '\x7d' :: rest => some ([], rest)
    | '"' :: rest =>
      match parseStrChars rest with
      | none => none
      | some (key, rest1) =>
        match skipWs rest1 with
        | ':' :: rest2 =>
          match parseJVal fuel rest2 with
          | none => none
          | some (v, rest3) =>
            match skipWs rest3 with
            | ',' :: rest4 =>
                (parseJFields fuel (skipWs rest4)).map
                  (fun p => ((key, v) :: p.1, p.2))
            | '\x7d' :: rest4 => some ([(key, v)], rest4)
            | _ => none
        | _ => none
    | _ => none

end

/-- Model of `JSON.parse`: parse one value and require the input to be
fully consumed up to trailing whitespace; `none` where JS throws. -/
def jsonParse (cs : List Char) : Option JVal :=
  match parseJVal (cs.length + 1) cs with
  | some (v, rest) => if skipWs rest = [] then some v else none
  | none => none

/-- JS property read on an object value: the last binding of the key wins,
absent keys give `undefined` (`none`). -/
def jObjGet (fields : List (List Char × JVal)) (k : List Char) :
    Option JVal :=
  fields.foldl (fun acc p => if p.1 = k then some p.2 else acc) none

/-- Model of the JS property access `v.k`: throws (`Except.error`) on
`null`, looks the key up on an object, and gives `undefined` (`none`) on
every other value. -/
def jGet (v : JVal) (k : List Char) : Except Unit (Option JVal) :=
  match v with
  | JVal.jnull => Except.error ()
  | JVal.jobj fields => Except.ok (jObjGet fields k)
  | _ => Except.ok none

/-- JS truthiness of a JSON value. -/
def jsTruthy : JVal → Bool
  | JVal.jnull => false
  | JVal.jbool b => b
  | JVal.jnum n => decide (n ≠ 0)
  | JVal.jstr s => decide (s ≠ [])
  | JVal.jarr _ => true
  | JVal.jobj _ => true

/-! ## isExpired (paws.js lines 107-131, paws-proxy.js lines 144-168) -/

/-- Key of the expiry claim. -/
def expKey : List Char := String.toList "exp"

/-- Model of `isExpired(token)`.  `now` is `Math.floor(DateTime.now()
.toSeconds())`.  The split and the base64 decode happen before the
`try`, so a missing middle segment (`Buffer.from(undefined, 'base64')`)
throws to the caller (`Except.error`).  Inside the `try`: a JSON parse
failure or a property access on `null` is caught and answered with
`true`; an absent or falsy `exp` is answered with `false` (the
"perpetual token" branch); a truthy non-numeric `exp` makes Luxon's
`DateTime.fromSeconds` throw, caught as `true`; a truthy numeric `exp`
is compared with `now > exp`. -/
def isExpired (now : Int) (token : List Char) : Except Unit Bool :=
  match (splitOnDot token).get? 1 with
  | none => Except.error ()
  | some payload =>
    let decodedPayload := b64decode payload
    match jsonParse decodedPayload with
    | none => Except.ok true
    | some pv =>
      match jGet pv expKey with
      | Except.error _ => Except.ok true
      | Except.ok oexp =>
        match oexp with
        | none => Except.ok false
        | some e =>
          if jsTruthy e then
            match e with
            | JVal.jnum n => Except.ok (decide (now > n))
            | _ => Except.ok true
          else Except.ok false

/-! ## JS parseInt and the seasonal quest filter
(paws.js lines 374-404, paws-proxy.js lines 417-447) -/

/-- Model of JS `parseInt(s)` with no radix argument on a decimal-looking
input: skip leading whitespace, take an optional sign, then the longest
run of decimal digits; `none` models `NaN` (no digits at the front — in
particular any string starting with `'_'`).  The hexadecimal `0x` form
never arises for the quest codes at hand. -/
def jsParseInt (cs : List Char) : Option Int :=
  let cs := cs.dropWhile jsWs
  match cs with
  | '-' :: rest => (parseDigits rest).map (fun p => -(p.1 : Int))
  | '+' :: rest => (parseDigits rest).map (fun p => (p.1 : Int))
  | _ => (parseDigits cs).map (fun p => (p.1 : Int))

/-- A seasonal quest as the filter reads it: its `code`, its
`progress.claimed` flag and its `progress.status` string. -/
structure SeasonQuest where
  code : List Char
  claimed : Bool
  status : List Char
deriving Repr, DecidableEq

/-- Characters of the seasonal code prefix. -/
def christmasChars : List Char := String.toList "christmas"

/-- Characters of the status value the filter rejects. -/
def finishedChars : List Char := String.toList "finished"

/-- Model of the arrow predicate inside `getChristmasQuests`:
`quest.code.startsWith('christmas') && parseInt(quest.code.slice(9)) <= 6
&& !quest.progress.claimed && quest.progress.status !== 'finished'`.
The comparison `parseInt(...) <= 6` is false when `parseInt` gives `NaN`
(every comparison with `NaN` is false in JS). -/
def christmasKeep (q : SeasonQuest) : Bool :=
  christmasChars.isPrefixOf q.code &&
  (match jsParseInt (q.code.drop 9) with
   | some n => decide (n ≤ 6)
   | none => false) &&
  !q.claimed &&
  decide (q.status ≠ finishedChars)

/-- Envelope of a quest-list response as the code reads it: HTTP status,
the body's `success` flag and its `data` array. -/
structure ListResp where
  status : Nat
  success : Bool
  data : List SeasonQuest
deriving Repr, DecidableEq

/-- Result value of `getChristmasQuests`: either the filtered list or the
error object `{ success: false, error }`. -/
def getChristmasQuests (call : Except (List Char) ListResp) :
    Except (List Char) (List SeasonQuest) :=
  match call with
  | Except.error e => Except.error e
  | Except.ok r =>
    if r.status = 200 ∧ r.success then Except.ok (r.data.filter christmasKeep)
    else Except.error (String.toList "Failed to get Christmas quests list")

/-! ## makeRequest (paws.js lines 43-58, paws-proxy.js lines 61-81)

The underlying `axios(config)` call is an oracle `call : Nat → Except ε α`
from the attempt number (starting at 1) to either a thrown error or a
response.  The model returns the function's value (`none` when the JS
function falls off the `while` loop and returns `undefined`, which only
happens for `maxRetries = 0`), the number of attempts made, and the list
of delays slept between attempts. -/

/-- One round of the retry loop: `attempt` is the JS loop counter,
`remaining = maxRetries - attempt + 1` counts the loop iterations left. -/
def makeRequestAux {ε α : Type} (call : Nat → Except ε α) (retryDelay : Nat) :
    Nat → Nat → Option (Except ε α) × Nat × List Nat
  | _, 0 => (none, 0, [])
  | attempt, Nat.succ rem =>
    match call attempt with
    | Except.ok r => (some (Except.ok r), 1, [])
    | Except.error e =>
      if rem = 0 then (some (Except.error e), 1, [])
      else
        let t := makeRequestAux call retryDelay (attempt + 1) rem
        (t.1, t.2.1 + 1, retryDelay :: t.2.2)

/-- Model of `makeRequest(config, maxRetries = 3, retryDelay = 5000)`. -/
def makeRequest {ε α : Type} (call : Nat → Except ε α)
    (maxRetries : Nat := 3) (retryDelay : Nat := 5000) :
    Option (Except ε α) × Nat × List Nat :=
  makeRequestAux call retryDelay 1 maxRetries

/-! ## claimQuest (paws.js lines 304-329, paws-proxy.js lines 347-372) -/

/-- A quest reward entry as `rewards[0].amount` reads it. -/
structure Reward where
  amount : Int
deriving Repr, DecidableEq

/-- The quest object handed to `claimQuest` (`title` and `rewards` are the
only fields it touches). -/
structure QuestData where
  title : List Char
  rewards : List Reward
deriving Repr, DecidableEq

/-- An HTTP response as an opaque envelope: `claimQuest` never looks
inside, so status and body are carried only to show they are ignored. -/
structure RespObj where
  status : Nat
  body : JVal
deriving Repr

/-- Result object of `claimQuest`; `reward` records the amount the
success log line reports. -/
structure ClaimResult where
  success : Bool
  reward : Option Int
  error : Option (List Char)
deriving Repr

/-- Model of `claimQuest(token, questId, questData)` given the outcome of
its `makeRequest` call.  A response object is always truthy, so the
`if (response)` test passes whenever the call did not throw; the code
then reads `questData.rewards[0].amount` for the log line — an access
that itself throws (and is caught, yielding a failure result) when
`rewards` is empty — and reports success without inspecting the
response's status or body. -/
def claimQuest (call : Except (List Char) RespObj) (questData : QuestData) :
    ClaimResult :=
  match call with
  | Except.error e => { success := false, reward := none, error := some e }
  | Except.ok _ =>
    match questData.rewards.head? with
    | some reward =>
        { success := true, reward := some reward.amount, error := none }
    | none =>
        { success := false, reward := none,
          error := some (String.toList "TypeError") }

/-! ## completeQuest (paws.js lines 267-302, paws-proxy.js lines 309-344) -/

/-- The completion response envelope: HTTP status plus the body's
`success` flag and `data` field (the branches test `data === true` and
`data === false`). -/
structure CompleteResp where
  status : Nat
  success : Bool
  data : JVal
deriving Repr

/-- An outbound quest request recorded in a trace: the completion POST or
the claim POST with the quest object passed along. -/
inductive OutCall where
  | completedReq : List Char → OutCall
  | claimReq : List Char → QuestData → OutCall
deriving Repr

/-- Result object of `completeQuest` on the paths that `return`; the
function returns `undefined` (modelled `none` at the call site) on the
200/201 `success=false` paths, which fall off the end of the branch. -/
structure CompleteResult where
  success : Bool
  data : Option JVal
  error : Option (List Char)
deriving Repr

/-- The placeholder quest object synthesized in the `data === true`
branch: `{ title: `Quest ${questId}`, rewards: [{ amount: 0 }] }`. -/
def placeholderQuest (questId : List Char) : QuestData :=
  { title := (String.toList "Quest ") ++ questId, rewards := [{ amount := 0 }] }

/-- Model of `completeQuest(token, questId)` given the outcome of its
completion call and the outcome of the claim call the `data === true`
branch makes through `claimQuest` (whose result is awaited but
discarded).  The second component is the trace of outbound requests. -/
def completeQuest (call : Except (List Char) CompleteResp)
    (claimCall : Except (List Char) RespObj) (questId : List Char) :
    Option CompleteResult × List OutCall :=
  match call with
  | Except.error e =>
      (some { success := false, data := none, error := some e },
       [OutCall.completedReq questId])
  | Except.ok resp =>
    if resp.status = 200 ∨ resp.status = 201 then
      if resp.success then
        (some { success := true, data := some resp.data, error := none },
         [OutCall.completedReq questId])
      else
        match resp.data with
        | JVal.jbool true =>
          let qd := placeholderQuest questId
          let _ := claimQuest claimCall qd
          (none, [OutCall.completedReq questId, OutCall.claimReq questId qd])
        | _ =>
          (none, [OutCall.completedReq questId])
    else
      (some { success := false, data := none,
              error := some (String.toList "Unexpected response status") },
       [OutCall.completedReq questId])

/-! ## processQuests (paws.js lines 331-361, paws-proxy.js lines 374-404) -/

/-- Everything one loop iteration of `processQuests` consumes for one
quest: the quest's id, the quest object itself (passed to the outer
`claimQuest`), and the outcomes of the three network calls the iteration
can make. -/
structure QuestEnv where
  id : List Char
  quest : QuestData
  completeCall : Except (List Char) CompleteResp
  innerClaimCall : Except (List Char) RespObj
  outerClaimCall : Except (List Char) RespObj

/-- What happened to one quest of the batch. -/
inductive StepOutcome where
  | claimed : StepOutcome
  | completeFailed : StepOutcome
  | claimFailed : StepOutcome
  | batchAborted : StepOutcome
deriving Repr, DecidableEq

/-- Model of the `for (const quest of unclaimedQuests)` loop of
`processQuests`, fed with the unclaimed quests `getQuestsList` returned.
Each iteration awaits `completeQuest`; when that call returns a result
object, `!completeResult.success` either `continue`s (completion failed)
or moves on to `claimQuest`, whose failure also `continue`s — so those
failures are per-quest.  But when `completeQuest` returns `undefined`
(its 200/201 `success=false` paths have no `return`), the member access
`completeResult.success` throws a `TypeError`, the surrounding
`try/catch` of `processQuests` swallows it, and the function returns:
the remaining quests of the batch are never processed. -/
def processQuestsGo : List QuestEnv → List (List Char × StepOutcome)
  | [] => []
  | e :: rest =>
    match (completeQuest e.completeCall e.innerClaimCall e.id).1 with
    | none => [(e.id, StepOutcome.batchAborted)]
    | some cr =>
      if !cr.success then
        (e.id, StepOutcome.completeFailed) :: processQuestsGo rest
      else
        let claimResult := claimQuest e.outerClaimCall e.quest
        if claimResult.success then
          (e.id, StepOutcome.claimed) :: processQuestsGo rest
        else
          (e.id, StepOutcome.claimFailed) :: processQuestsGo rest

/-! ## saveToken (paws.js lines 97-105, paws-proxy.js lines 134-142) -/

/-- JS property assignment `obj[k] = v` on an object modelled as an
association list in insertion order: an existing binding is overwritten
in place, a new key is appended. -/
def jsSet : List (String × String) → String → String → List (String × String)
  | [], k, v => [(k, v)]
  | (k0, v0) :: rest, k, v =>
    if k0 = k then (k, v) :: rest else (k0, v0) :: jsSet rest k v

/-- JS property read `obj[k]` on the same model. -/
def jsGetProp (m : List (String × String)) (k : String) : Option String :=
  (m.find? (fun p => p.1 = k)).map (fun p => p.2)

/-- The state `saveToken` leaves behind: the in-memory `this.tokens`
mapping and whether the write to `token.json` succeeded. -/
structure SaveTokenResult where
  tokens : List (String × String)
  persisted : Bool
deriving Repr, DecidableEq

/-- Model of `saveToken(userId, token)`: the assignment
`this.tokens[userId] = token` happens before the `try`, and a failing
`fs.writeFileSync` is only logged — the mapping is not rolled back.
`writeOk` is the oracle for whether the write throws. -/
def saveToken (tokens : List (String × String)) (userId token : String)
    (writeOk : Bool) : SaveTokenResult :=
  let tokens1 := jsSet tokens userId token
  { tokens := tokens1, persisted := writeOk }

/-! ## validateWalletFile and the startup guard of main
(paws.js lines 225-237 and 454-457, paws-proxy.js lines 262-280 and
497-500) -/

/-- Model of `validateWalletFile` in paws.js: the wallet list and the
data list must have the same length. -/
def validateWalletFile (wallets data : List String) : Bool :=
  decide (wallets.length = data.length)

/-- Model of `validateWalletFile` in paws-proxy.js: wallet, proxy and
data lists must all have the data list's length. -/
def validateWalletFileProxy (wallets proxies data : List String) : Bool :=
  decide (wallets.length = data.length) &&
  decide (proxies.length = data.length)

/-- How `main` starts: either the process exits with a code before the
`while (true)` loop, or the loop is entered. -/
inductive StartupOutcome where
  | exited : Nat → StartupOutcome
  | enteredLoop : StartupOutcome
deriving Repr, DecidableEq

/-- Model of the guard at the top of `main` in paws.js:
`if (!this.validateWalletFile()) process.exit(1);` runs before any
account is touched. -/
def mainStartup (wallets data : List String) : StartupOutcome :=
  if validateWalletFile wallets data then StartupOutcome.enteredLoop
  else StartupOutcome.exited 1

/-- Model of the same guard in paws-proxy.js. -/
def mainStartupProxy (wallets proxies data : List String) : StartupOutcome :=
  if validateWalletFileProxy wallets proxies data then
    StartupOutcome.enteredLoop
  else StartupOutcome.exited 1

/-! ## A strict reading of base64 validity

The spec speaks of a middle segment that is "not valid base64"; Node's
decoder has no such notion, so validity in the spec's sense is written
out here from its words: characters of the standard alphabet, then up to
two `'='` padding characters, with a length divisible by four. -/

/-- Validity of a base64 string in the strict sense the spec's words
assume. -/
def strictBase64 (cs : List Char) : Bool :=
  let body := cs.takeWhile (fun c => (b64Val c).isSome)
  let rest := cs.drop body.length
  rest.all (fun c => c = '=') && decide (rest.length ≤ 2) &&
    decide (cs.length % 4 = 0)

end Paws

namespace Paws

/-! # Theorems -/

/-- Splitting a string that contains no `'.'` yields the single segment
holding the whole string. -/
theorem splitOnDot_no_dot (cs : List Char) (h : '.' ∉ cs) :
    splitOnDot cs = [cs] := by
  induction cs with
  | nil => rfl
  | cons c rest ih =>
    simp only [List.mem_cons, not_or] at h
    simp only [splitOnDot]
    rw [if_neg (fun hc => h.1 hc.symm), ih h.2]

/-- The seasonal filter, characterized: a quest passes exactly when the
prefix test passes, `parseInt` of the code after the prefix yields an
actual number at most 6, the quest is unclaimed and its status is not
"finished". -/
theorem christmasKeep_eq_true_iff (q : SeasonQuest) :
    christmasKeep q = true ↔
      christmasChars.isPrefixOf q.code = true ∧
      (∃ n : Int, jsParseInt (q.code.drop 9) = some n ∧ n ≤ 6) ∧
      q.claimed = false ∧ q.status ≠ finishedChars := by
  unfold christmasKeep
  cases h : jsParseInt (q.code.drop 9) with
  | none =>
    simp [h, Bool.and_eq_true]
  | some n =>
    simp [h, Bool.and_eq_true, decide_eq_true_iff, Bool.not_eq_true',
      and_assoc]

/-- C1 counterexample: the claim asserts that a quest with code
`christmas_003`, unclaimed and with status `active`, is included by the
seasonal filter.  It is not: `'christmas_003'.slice(9)` is `'_003'`,
`parseInt('_003')` is `NaN`, and `NaN <= 6` is false, so `christmasKeep`
rejects it and `getChristmasQuests` filters it out of a successful
response. -/
theorem getChristmasQuests_drops_christmas_underscore_003 :
    christmasKeep { code := String.toList "christmas_003", claimed := false,
                    status := String.toList "active" } = false ∧
    getChristmasQuests (Except.ok
      { status := 200, success := true,
        data := [{ code := String.toList "christmas_003", claimed := false,
                   status := String.toList "active" }] }) = Except.ok [] :=
  ⟨rfl, rfl⟩

/-- C1 amended: a quest of a successful seasonal response is kept iff its
code starts with `christmas`, JS `parseInt` applied to the code after
that 9-character prefix yields an actual number at most 6, it is
unclaimed and its status is not `finished`.  Because `parseInt` gives
`NaN` on a leading underscore, every code of the form `christmas_NNN` is
excluded — `christmas_007` and also `christmas_003`; a code such as
`christmas003` (suffix 3 with no underscore), unclaimed with status
`active`, is included. -/
theorem getChristmasQuests_filter_spec (qs : List SeasonQuest)
    (q : SeasonQuest) :
    getChristmasQuests (Except.ok
      { status := 200, success := true, data := qs }) =
      Except.ok (qs.filter christmasKeep) ∧
    (q ∈ qs.filter christmasKeep ↔ q ∈ qs ∧
      (christmasChars.isPrefixOf q.code = true ∧
       (∃ n : Int, jsParseInt (q.code.drop 9) = some n ∧ n ≤ 6) ∧
       q.claimed = false ∧ q.status ≠ finishedChars)) ∧
    christmasKeep { code := String.toList "christmas003", claimed := false,
                    status := String.toList "active" } = true ∧
    christmasKeep { code := String.toList "christmas_007", claimed := false,
                    status := String.toList "active" } = false ∧
    christmasKeep { code := String.toList "christmas_003", claimed := false,
                    status := String.toList "active" } = false := by
  refine ⟨rfl, ?_, rfl, rfl, rfl⟩
  rw [List.mem_filter, christmasKeep_eq_true_iff]

/-- C3 counterexample: the claim asserts that any token whose payload
carries an `exp` that is strictly in the past is reported expired.  A
payload `{"exp":0}` (the shown base64 decodes and parses to exactly
that) carries an expiry strictly before `now = 1000`, yet
`isExpired` answers `false`: the truthiness test `if (parsedPayload.exp)`
treats the number `0` as absent and takes the "perpetual token"
branch. -/
theorem isExpired_exp_zero_in_past_returns_false :
    (0 : Int) < 1000 ∧
    jsonParse (b64decode (String.toList "eyJleHAiOjB9")) =
      some (JVal.jobj [(expKey, JVal.jnum 0)]) ∧
    isExpired 1000 (String.toList "h.eyJleHAiOjB9.s") = Except.ok false :=
  ⟨by norm_num, rfl, rfl⟩

/-- C3 amended: for a token whose middle segment decodes and parses to a
value whose `exp` property is the number `exp`, `isExpired` answers
`true` exactly when `exp` is nonzero and strictly in the past; in
particular a future `exp` gives `false`, a past nonzero `exp` gives
`true`, and `exp = 0` gives `false` even though it lies in the past. -/
theorem isExpired_numeric_exp (now : Int) (tok payload : List Char)
    (pv : JVal) (e : Int)
    (h1 : (splitOnDot tok).get? 1 = some payload)
    (h2 : jsonParse (b64decode payload) = some pv)
    (h3 : jGet pv expKey = Except.ok (some (JVal.jnum e))) :
    isExpired now tok = Except.ok (decide (e ≠ 0 ∧ e < now)) := by
  unfold isExpired
  rw [h1]
  simp only [h2, h3]
  by_cases hz : e = 0
  · subst hz
    simp [jsTruthy]
  · have h4 : decide (e ≠ 0 ∧ e < now) = decide (now > e) := by
      rw [decide_eq_decide, gt_iff_lt]
      exact ⟨fun hp => hp.2, fun hlt => ⟨hz, hlt⟩⟩
    rw [h4]
    simp [jsTruthy, hz]

/-- Witness for the amended C3 theorem: the token with payload
`{"exp":5}` at `now = 10` is expired. -/
theorem isExpired_numeric_exp_witness :
    isExpired 10 (String.toList "h.eyJleHAiOjV9.s") = Except.ok true :=
  isExpired_numeric_exp 10 (String.toList "h.eyJleHAiOjV9.s")
    (String.toList "eyJleHAiOjV9") (JVal.jobj [(expKey, JVal.jnum 5)]) 5
    rfl rfl rfl

/-- C4 counterexample: the claim asserts that a token whose middle
segment is not valid base64 is reported expired.  The segment `e3 0=` is
not valid base64 (it contains a space), but Node's lenient decoder skips
the space and yields the two bytes of `\x7b\x7d`, which parse as the
empty JSON object; the object has no `exp`, so `isExpired` answers
`false`, not `true`. -/
theorem isExpired_invalid_base64_returns_false :
    strictBase64 (String.toList "e3 0=") = false ∧
    b64decode (String.toList "e3 0=") = String.toList "\x7b\x7d" ∧
    isExpired 1000 (String.toList "h.e3 0=.s") = Except.ok false :=
  ⟨rfl, rfl, rfl⟩

/-- C4 amended: a token whose middle segment, after Node's lenient
base64 decoding (characters outside the alphabet are skipped), does not
parse as JSON is reported expired; a segment that is not valid base64
can nevertheless decode to valid JSON, and then the normal expiry logic
runs instead. -/
theorem isExpired_unparsable_payload (now : Int) (tok payload : List Char)
    (h1 : (splitOnDot tok).get? 1 = some payload)
    (h2 : jsonParse (b64decode payload) = none) :
    isExpired now tok = Except.ok true := by
  unfold isExpired
  rw [h1]
  simp only [h2]

/-- Witness for the amended C4 theorem: a token whose middle segment
decodes to nothing JSON-like is reported expired. -/
theorem isExpired_unparsable_payload_witness :
    isExpired 1000 (String.toList "h.!!!.s") = Except.ok true :=
  isExpired_unparsable_payload 1000 (String.toList "h.!!!.s")
    (String.toList "!!!") rfl rfl

/-- C9: a token with no `'.'` separator has no middle segment, so
`payload` is `undefined` and `Buffer.from(undefined, 'base64')` —
evaluated before the `try` — throws to the caller: `isExpired` does not
return a boolean. -/
theorem isExpired_no_dot_throws (now : Int) (tok : List Char)
    (h : '.' ∉ tok) : isExpired now tok = Except.error () := by
  unfold isExpired
  rw [splitOnDot_no_dot tok h]
  rfl

/-- Witness for C9: the dot-free token `abc` makes `isExpired` throw. -/
theorem isExpired_no_dot_throws_witness :
    isExpired 1000 (String.toList "abc") = Except.error () :=
  isExpired_no_dot_throws 1000 (String.toList "abc") (by decide)

/-- C2, at the failing input: in a two-quest batch whose first quest's
completion call answers 200 with `success=false, data=true`,
`completeQuest` returns `undefined`, the member access
`completeResult.success` in `processQuests` throws, and the outer catch
ends the loop: the second quest is never processed.  By contrast, a
first quest whose `completeQuest` returns an actual failure object (a
thrown completion call) only `continue`s, and the second quest is still
claimed. -/
theorem processQuests_aborts_on_undefined_completeResult :
    processQuestsGo
      [{ id := String.toList "q1",
         quest := { title := String.toList "Quest one",
                    rewards := [{ amount := 100 }] },
         completeCall := Except.ok
           { status := 200, success := false, data := JVal.jbool true },
         innerClaimCall := Except.ok { status := 200, body := JVal.jnull },
         outerClaimCall := Except.ok { status := 200, body := JVal.jnull } },
       { id := String.toList "q2",
         quest := { title := String.toList "Quest two",
                    rewards := [{ amount := 50 }] },
         completeCall := Except.ok
           { status := 200, success := true, data := JVal.jbool false },
         innerClaimCall := Except.ok { status := 200, body := JVal.jnull },
         outerClaimCall := Except.ok { status := 200, body := JVal.jnull } }]
      = [(String.toList "q1", StepOutcome.batchAborted)] ∧
    processQuestsGo
      [{ id := String.toList "q1",
         quest := { title := String.toList "Quest one",
                    rewards := [{ amount := 100 }] },
         completeCall := Except.error (String.toList "Request failed"),
         innerClaimCall := Except.ok { status := 200, body := JVal.jnull },
         outerClaimCall := Except.ok { status := 200, body := JVal.jnull } },
       { id := String.toList "q2",
         quest := { title := String.toList "Quest two",
                    rewards := [{ amount := 50 }] },
         completeCall := Except.ok
           { status := 200, success := true, data := JVal.jbool false },
         innerClaimCall := Except.ok { status := 200, body := JVal.jnull },
         outerClaimCall := Except.ok { status := 200, body := JVal.jnull } }]
      = [(String.toList "q1", StepOutcome.completeFailed),
         (String.toList "q2", StepOutcome.claimed)] :=
  ⟨rfl, rfl⟩

/-- C5: with the default budget of 3 attempts and 5000 ms delay, a call
that throws on every attempt is tried exactly three times with a 5 s
pause after each of the first two, and the third attempt's error is
propagated unchanged; a call that succeeds on the first or on the second
attempt returns that response and makes no further attempts. -/
theorem makeRequest_retry_spec (callF callS callM : Nat → Except String Nat)
    (e1 e2 e3 f1 : String) (r1 r2 : Nat)
    (hf1 : callF 1 = Except.error e1) (hf2 : callF 2 = Except.error e2)
    (hf3 : callF 3 = Except.error e3)
    (hs1 : callS 1 = Except.ok r1)
    (hm1 : callM 1 = Except.error f1) (hm2 : callM 2 = Except.ok r2) :
    makeRequest callF = (some (Except.error e3), 3, [5000, 5000]) ∧
    makeRequest callS = (some (Except.ok r1), 1, []) ∧
    makeRequest callM = (some (Except.ok r2), 2, [5000]) := by
  refine ⟨?_, ?_, ?_⟩
  · show makeRequestAux callF 5000 1 3 = _
    rw [makeRequestAux, hf1]
    rw [makeRequestAux, hf2]
    rw [makeRequestAux, hf3]
    rfl
  · show makeRequestAux callS 5000 1 3 = _
    rw [makeRequestAux, hs1]
  · show makeRequestAux callM 5000 1 3 = _
    rw [makeRequestAux, hm1]
    rw [makeRequestAux, hm2]
    rfl

/-- Witness for C5: an always-throwing call is attempted three times and
its last error surfaces; calls succeeding at attempt 1 or 2 stop
there. -/
theorem makeRequest_retry_spec_witness :
    makeRequest (fun _ => (Except.error "boom" : Except String Nat)) =
      (some (Except.error "boom"), 3, [5000, 5000]) ∧
    makeRequest (fun _ => (Except.ok 7 : Except String Nat)) =
      (some (Except.ok 7), 1, []) ∧
    makeRequest (fun k => if k = 1 then (Except.error "x" : Except String Nat)
      else Except.ok 9) = (some (Except.ok 9), 2, [5000]) :=
  makeRequest_retry_spec (fun _ => Except.error "boom") (fun _ => Except.ok 7)
    (fun k => if k = 1 then Except.error "x" else Except.ok 9)
    "boom" "boom" "boom" "x" 7 9 rfl rfl rfl rfl rfl rfl

/-- C6: when the completion call answers 200 or 201 with `success=false`
and boolean `data=true`, the engine's outbound trace is exactly one
completion request followed by one claim request for the same quest id —
no second completion attempt — and the claim is passed the synthesized
placeholder quest whose single reward amount is zero, whatever the claim
call itself returns. -/
theorem completeQuest_claims_after_data_true (questId : List Char)
    (resp : CompleteResp) (claimCall : Except (List Char) RespObj)
    (hst : resp.status = 200 ∨ resp.status = 201)
    (hsu : resp.success = false)
    (hd : resp.data = JVal.jbool true) :
    (completeQuest (Except.ok resp) claimCall questId).2 =
      [OutCall.completedReq questId,
       OutCall.claimReq questId (placeholderQuest questId)] ∧
    (placeholderQuest questId).rewards = [{ amount := 0 }] := by
  refine ⟨?_, rfl⟩
  simp only [completeQuest]
  rw [if_pos hst, hsu, hd]
  rfl

/-- Witness for C6: a 201 response with `success=false, data=true` for
quest `q1` produces the completion-then-claim trace with the zero-reward
placeholder. -/
theorem completeQuest_claims_after_data_true_witness :
    (completeQuest
      (Except.ok { status := 201, success := false, data := JVal.jbool true })
      (Except.ok { status := 200, body := JVal.jnull })
      (String.toList "q1")).2 =
      [OutCall.completedReq (String.toList "q1"),
       OutCall.claimReq (String.toList "q1")
         (placeholderQuest (String.toList "q1"))] ∧
    (placeholderQuest (String.toList "q1")).rewards = [{ amount := 0 }] :=
  completeQuest_claims_after_data_true (String.toList "q1")
    { status := 201, success := false, data := JVal.jbool true }
    (Except.ok { status := 200, body := JVal.jnull })
    (Or.inr rfl) rfl rfl

/-- C7: unequal account input lists make startup validation fail and
`main` exit with code 1 before the run loop begins, in both variants —
paws.js when wallet and data line counts differ, paws-proxy.js when the
wallet or the proxy count differs from the data count. -/
theorem mainStartup_mismatch_exits (wallets data wp pp dp : List String)
    (h : wallets.length ≠ data.length)
    (hp : wp.length ≠ dp.length ∨ pp.length ≠ dp.length) :
    mainStartup wallets data = StartupOutcome.exited 1 ∧
    mainStartupProxy wp pp dp = StartupOutcome.exited 1 := by
  constructor
  · simp [mainStartup, validateWalletFile, h]
  · rcases hp with hp | hp <;>
      simp [mainStartupProxy, validateWalletFileProxy, hp]

/-- Witness for C7: one wallet line against no data lines exits with
code 1; in the proxy variant a missing proxy line does the same. -/
theorem mainStartup_mismatch_exits_witness :
    mainStartup ["w1"] [] = StartupOutcome.exited 1 ∧
    mainStartupProxy ["w1"] [] ["d1"] = StartupOutcome.exited 1 :=
  mainStartup_mismatch_exits ["w1"] [] ["w1"] [] ["d1"]
    (by decide) (Or.inr (by decide))

/-- C8: whenever the claim call yields any response at all, `claimQuest`
reports success and the reward amount of the supplied quest data's first
reward entry, for every response whatsoever — no status code or body is
inspected. -/
theorem claimQuest_any_response_succeeds (resp : RespObj)
    (questData : QuestData) (r : Reward)
    (h : questData.rewards.head? = some r) :
    claimQuest (Except.ok resp) questData =
      { success := true, reward := some r.amount, error := none } := by
  unfold claimQuest
  rw [h]

/-- Witness for C8: a response with an error-looking status 500 and a
`success=false`-looking body is still reported as a successful claim
with the quest's configured reward of 250. -/
theorem claimQuest_any_response_succeeds_witness :
    claimQuest
      (Except.ok { status := 500, body := JVal.jbool false })
      { title := String.toList "Quest x", rewards := [{ amount := 250 }] } =
      { success := true, reward := some 250, error := none } :=
  claimQuest_any_response_succeeds
    { status := 500, body := JVal.jbool false }
    { title := String.toList "Quest x", rewards := [{ amount := 250 }] }
    { amount := 250 } rfl

/-- Reading back the key just written: JS property assignment followed by
a property read yields the assigned value. -/
theorem jsGetProp_jsSet (m : List (String × String)) (k v : String) :
    jsGetProp (jsSet m k v) k = some v := by
  induction m with
  | nil => simp [jsSet, jsGetProp]
  | cons p rest ih =>
    obtain ⟨k0, v0⟩ := p
    by_cases hk : k0 = k
    · subst hk
      simp [jsSet, jsGetProp]
    · simp only [jsSet, if_neg hk]
      simpa [jsGetProp, List.find?, hk] using ih

/-- C10: `saveToken` installs the new token in the in-memory mapping
before attempting to persist it; when the write fails the mapping still
answers the new token for that user, the mapping is identical to the one
a successful write leaves, and only the persistence flag records the
failure. -/
theorem saveToken_keeps_token_on_write_failure
    (tokens : List (String × String)) (userId tok : String)
    (writeOk : Bool) :
    (saveToken tokens userId tok writeOk).tokens = jsSet tokens userId tok ∧
    jsGetProp (saveToken tokens userId tok false).tokens userId = some tok ∧
    (saveToken tokens userId tok false).tokens =
      (saveToken tokens userId tok true).tokens ∧
    (saveToken tokens userId tok false).persisted = false :=
  ⟨rfl, jsGetProp_jsSet tokens userId tok, rfl, rfl⟩

end Paws
